import Mathlib

/-!
Shallow embedding of the conditional WGAN-GP training engine of
src/src/learning/cWGAN.py (classes cWGAN, Trainer, cWGAN_mnist,
MNISTTrainer) over exact rationals.

Tensors are embedded as lists: a batch is a list of per-example vectors,
each a list of rationals.  External TensorFlow machinery that the Python
code only calls through a fixed interface (network forward passes,
automatic differentiation, optimizer updates, random number draws,
the filesystem checkpoint sink, and the tf.sqrt primitive) is abstracted
as an environment of functions; every arithmetic step the Python code
itself performs (losses, interpolation, penalty formula, loop counting,
history appends) is embedded directly.
-/

namespace Falcon

/-- A per-example vector of rationals (one tensor row). -/
abbrev Vec := List ℚ

/-- A batch of per-example vectors. -/
abbrev Batch := List Vec

/-- Arithmetic mean, embedding tf.math.reduce_mean on a vector of scalars.
On the empty list this is 0 (the training code never reduces an empty
tensor on the paths modelled here). -/
def mean (l : List ℚ) : ℚ := l.sum / (l.length : ℚ)

/-- Embeds cWGAN.critic_loss: the negated empirical Wasserstein estimator
-(mean(real_output) - mean(fake_output)). -/
def critic_loss (real_output fake_output : List ℚ) : ℚ :=
  -(mean real_output - mean fake_output)

/-- Embeds cWGAN.generator_loss: -mean(fake_output). -/
def generator_loss (fake_output : List ℚ) : ℚ :=
  -(mean fake_output)

/-- Ternary zipWith used to combine the per-example interpolation
coefficients with the two data batches; truncates to the shortest input,
as elementwise tensor ops require equal shapes in the source. -/
def zipWith3 (f : ℚ → Vec → Vec → Vec) : List ℚ → Batch → Batch → Batch
  | t :: ts, yr :: yrs, yg :: ygs => f t yr yg :: zipWith3 f ts yrs ygs
  | _, _, _ => []

/-- Embeds cWGAN.interpolate_data given the batch of sampled coefficients
ts (one scalar per example; in the source they are drawn by
tf.random.normal with mean 0 and stddev 1, and no clipping to the unit
interval is applied afterwards): each row is t * (y_gen - y_real) + y_real,
elementwise. -/
def interpolate_data (ts : List ℚ) (y_real y_gen : Batch) : Batch :=
  zipWith3 (fun t yr yg =>
    (yg.zip yr).map (fun p => t * (p.1 - p.2) + p.2)) ts y_real y_gen

/-- Generator and critic trainable parameters, each flattened to one
vector.   The two networks own disjoint parameter stores. -/
structure Nets where
  genP : Vec
  critP : Vec
deriving DecidableEq

/-- External TensorFlow machinery, abstracted as functions.

genForward b p x n : generator forward pass with training flag b,
generator parameters p, condition batch x, noise batch n.
critForward b p x y : two-input (dense variant) critic forward pass,
returning one scalar score per example.
critForward1 b p c : single-input (MNIST variant) critic forward pass
on an already concatenated image-label batch.
critGradY p x y : the per-example gradient of the critic output with
respect to its y input, as delivered by gp_tape.gradient.
critLossGrad / genLossGrad : tape.gradient of a loss value with respect
to the trainable variables of the critic / generator.
applyCriticGrads / applyGenGrads : one optimizer.apply_gradients update.
concatIL : data_utils.concatenate_images_labels (external module).
sqrtQ : the tf.sqrt primitive.
noise k / tSample k / pickIdx k : the k-th fresh draw from
tf.random.uniform, tf.random.normal, and np.random.choice.
saveOk i : whether the checkpoint write at iteration i succeeds. -/
structure Env where
  genForward : Bool → Vec → Batch → Batch → Batch
  critForward : Bool → Vec → Batch → Batch → List ℚ
  critForward1 : Bool → Vec → Batch → List ℚ
  critGradY : Vec → Batch → Batch → Batch
  critLossGrad : ℚ → Vec
  genLossGrad : ℚ → Vec
  applyCriticGrads : Vec → Vec → Vec
  applyGenGrads : Vec → Vec → Vec
  concatIL : Batch → Batch → Batch
  sqrtQ : ℚ → ℚ
  noise : ℕ → Batch
  tSample : ℕ → List ℚ
  pickIdx : ℕ → List ℕ
  saveOk : ℕ → Bool

/-- Embeds cWGAN.gradient_penalty: interpolate with fresh normal draws,
evaluate the critic gradient with respect to the interpolated input,
take the per-example L2 norm, and return the batch mean of
(norm - 1)^2. -/
def gradient_penalty (env : Env) (critP : Vec) (rng : ℕ)
    (x y_real y_gen : Batch) : ℚ :=
  let ts := env.tSample rng
  let y_interpolated := interpolate_data ts y_real y_gen
  let grads := env.critGradY critP x y_interpolated
  let norms := grads.map (fun g => env.sqrtQ (g.map (fun a => a * a)).sum)
  mean (norms.map (fun n => (n - 1) ^ 2))

/-- Embeds cWGAN.train_critic (dense 4-vector variant): fresh uniform
noise, generator forward with training=False, critic forward on the real
and generated batches with training=True, loss = critic_loss +
gp_weight * gradient_penalty, gradient of that loss applied to the
critic trainable variables only.  Returns the updated networks and the
loss value that was differentiated and returned. -/
def train_critic (env : Env) (g : Nets) (gp_weight : ℚ) (rng : ℕ)
    (x y : Batch) : Nets × ℚ :=
  let noise := env.noise rng
  let predicted_y := env.genForward false g.genP x noise
  let real_output := env.critForward true g.critP x y
  let fake_output := env.critForward true g.critP x predicted_y
  let critic_loss_val :=
    critic_loss real_output fake_output
      + gp_weight * gradient_penalty env g.critP rng x y predicted_y
  let critic_grads := env.critLossGrad critic_loss_val
  ({ g with critP := env.applyCriticGrads g.critP critic_grads },
    critic_loss_val)

/-- Embeds cWGAN.train_generator (dense variant): fresh uniform noise,
generator forward with training=True, critic forward with training=False,
loss = -mean(fake_output), gradient applied to the generator trainable
variables only. -/
def train_generator (env : Env) (g : Nets) (rng : ℕ) (x : Batch) :
    Nets × ℚ :=
  let noise := env.noise rng
  let predicted_y := env.genForward true g.genP x noise
  let fake_output := env.critForward false g.critP x predicted_y
  let gl := generator_loss fake_output
  ({ g with genP := env.applyGenGrads g.genP (env.genLossGrad gl) }, gl)

/-- Embeds cWGAN.make_generator_predictions: generator forward pass with
training=False on fresh uniform noise. -/
def make_generator_predictions (env : Env) (genP : Vec) (rng : ℕ)
    (x : Batch) : Batch :=
  env.genForward false genP x (env.noise rng)

/-- Embeds cWGAN_mnist.train_critic: the loss differentiated and applied
to the critic is critic_loss(real_output, fake_output) alone; no
gradient-penalty term appears in this override. -/
def train_critic_mnist (env : Env) (g : Nets) (rng : ℕ)
    (labels images : Batch) : Nets × ℚ :=
  let noise := env.noise rng
  let concat_real := env.concatIL images labels
  let generated_images := env.genForward false g.genP labels noise
  let concat_fake := env.concatIL generated_images labels
  let real_output := env.critForward1 true g.critP concat_real
  let fake_output := env.critForward1 true g.critP concat_fake
  let critic_loss_val := critic_loss real_output fake_output
  let critic_grads := env.critLossGrad critic_loss_val
  ({ g with critP := env.applyCriticGrads g.critP critic_grads },
    critic_loss_val)

/-- Embeds cWGAN_mnist.train_generator: generator forward with
training=True, concatenation with the labels, critic forward with
training=False, gradient applied to the generator variables only. -/
def train_generator_mnist (env : Env) (g : Nets) (rng : ℕ)
    (labels : Batch) : Nets × ℚ :=
  let noise := env.noise rng
  let generated_images := env.genForward true g.genP labels noise
  let concat_fake := env.concatIL generated_images labels
  let fake_output := env.critForward1 false g.critP concat_fake
  let gl := generator_loss fake_output
  ({ g with genP := env.applyGenGrads g.genP (env.genLossGrad gl) }, gl)

/-- Failures that can surface out of the training loop: the numpy
ValueError raised by np.random.choice when asked for a sample larger
than the population (the insufficient-data failure of the spec), and a
raised exception from generator.save_weights (the persistence failure of
the spec). -/
inductive TrainError
  | insufficientData
  | persistenceError
deriving DecidableEq

/-- Trainer construction parameters taken from params_dict, plus the
loaded dataset of (x, y) pairs; num_training_examples is data.length. -/
structure TrainerConfig where
  num_critic_iters : ℕ
  batch_size : ℕ
  epochs : ℕ
  weight_saving_interval : ℕ
  gp_weight : ℚ
  data : List (Vec × Vec)
deriving DecidableEq

/-- Mutable trainer state: the model parameters, a counter of random
draws consumed so far (each np.random.choice / tf.random call in program
order consumes one index of the abstract random streams), the three
append-only loss histories, and the list of iterations whose checkpoint
write completed. -/
structure TrainerState where
  model : Nets
  rng : ℕ
  critic_losses : List ℚ
  generator_losses : List ℚ
  wass_estimates : List ℚ
  saved : List ℕ
deriving DecidableEq

/-- Embeds Trainer.sample_batch_of_data.  np.random.choice with
replace=False raises ValueError exactly when the requested sample size
exceeds the population, and otherwise returns batch_size in-range
indices; pick supplies the concrete random draw (reduced into range
here, since choice only ever returns population indices; that the
indices are pairwise distinct is not needed by any property below). -/
def sample_batch_of_data (data : List (Vec × Vec)) (batch_size : ℕ)
    (pick : List ℕ) : Except TrainError (Batch × Batch) :=
  if batch_size ≤ data.length then
    let idxs := (pick.take batch_size).map (fun i => i % data.length)
    .ok (idxs.map (fun i => (data.getD i ([], [])).1),
         idxs.map (fun i => (data.getD i ([], [])).2))
  else
    .error .insufficientData

/-- Embeds Trainer.take_critic_step: sample a fresh batch, run
cWGAN.train_critic on it, append the returned loss to critic_losses.
(The clip_critic_weights call is commented out in the source.) -/
def take_critic_step (env : Env) (cfg : TrainerConfig)
    (st : TrainerState) : Except TrainError TrainerState :=
  match sample_batch_of_data cfg.data cfg.batch_size (env.pickIdx st.rng) with
  | .error e => .error e
  | .ok (x, y) =>
      let r := train_critic env st.model cfg.gp_weight (st.rng + 1) x y
      .ok { st with model := r.1,
                    critic_losses := st.critic_losses ++ [r.2],
                    rng := st.rng + 2 }

/-- Embeds Trainer.take_generator_step: sample a fresh batch, run
cWGAN.train_generator, append its loss, then evaluate generator
predictions and both critic outputs with training=False and append
-critic_loss(real_output, fake_output) to wass_estimates. -/
def take_generator_step (env : Env) (cfg : TrainerConfig)
    (st : TrainerState) : Except TrainError TrainerState :=
  match sample_batch_of_data cfg.data cfg.batch_size (env.pickIdx st.rng) with
  | .error e => .error e
  | .ok (x, y) =>
      let r := train_generator env st.model (st.rng + 1) x
      let predicted_y := make_generator_predictions env r.1.genP (st.rng + 2) x
      let real_output := env.critForward false st.model.critP x y
      let fake_output := env.critForward false st.model.critP x predicted_y
      let wass := -critic_loss real_output fake_output
      .ok { st with model := r.1,
                    generator_losses := st.generator_losses ++ [r.2],
                    wass_estimates := st.wass_estimates ++ [wass],
                    rng := st.rng + 3 }

/-- Embeds MNISTTrainer.take_generator_step: like the parent override but
concatenating images with labels before each critic evaluation; both the
generator prediction pass and the two critic evaluations use
training=False. -/
def take_generator_step_mnist (env : Env) (cfg : TrainerConfig)
    (st : TrainerState) : Except TrainError TrainerState :=
  match sample_batch_of_data cfg.data cfg.batch_size (env.pickIdx st.rng) with
  | .error e => .error e
  | .ok (labels, images) =>
      let concat_real := env.concatIL images labels
      let r := train_generator_mnist env st.model (st.rng + 1) labels
      let predicted_images :=
        make_generator_predictions env r.1.genP (st.rng + 2) labels
      let concat_fake := env.concatIL predicted_images labels
      let real_output := env.critForward1 false st.model.critP concat_real
      let fake_output := env.critForward1 false st.model.critP concat_fake
      let wass := -critic_loss real_output fake_output
      .ok { st with model := r.1,
                    generator_losses := st.generator_losses ++ [r.2],
                    wass_estimates := st.wass_estimates ++ [wass],
                    rng := st.rng + 3 }

/-- Embeds Trainer.save_weights: write the generator checkpoint for the
given iteration; a failed filesystem write raises, which surfaces as the
persistence failure, and on failure the trainer state is not modified
(the write happens after all in-memory updates of the iteration). -/
def save_weights (env : Env) (iteration : ℕ) (st : TrainerState) :
    Except TrainError TrainerState :=
  if env.saveOk iteration then .ok { st with saved := st.saved ++ [iteration] }
  else .error .persistenceError

/-- The inner critic loop of Trainer.train: num_critic_iters consecutive
take_critic_step calls. -/
def run_critic_iters (env : Env) (cfg : TrainerConfig) :
    ℕ → TrainerState → Except TrainError TrainerState
  | 0, st => .ok st
  | n + 1, st =>
      match take_critic_step env cfg st with
      | .error e => .error e
      | .ok st₁ => run_critic_iters env cfg n st₁

/-- The critic phase followed by the generator step, as executed for one
iteration of Trainer.train before the checkpoint check. -/
def critic_then_gen (env : Env) (cfg : TrainerConfig) (st : TrainerState) :
    Except TrainError TrainerState :=
  match run_critic_iters env cfg cfg.num_critic_iters st with
  | .error e => .error e
  | .ok st₁ => take_generator_step env cfg st₁

/-- One full iteration of the body of Trainer.train: num_critic_iters
critic steps, one generator step, then a checkpoint write when
iteration % weight_saving_interval == 0.  There is no exception handler
in the source loop, so a failing step or save propagates. -/
def train_iteration (env : Env) (cfg : TrainerConfig) (iteration : ℕ)
    (st : TrainerState) : Except TrainError TrainerState :=
  match critic_then_gen env cfg st with
  | .error e => .error e
  | .ok st₁ =>
      if iteration % cfg.weight_saving_interval = 0 then
        save_weights env iteration st₁
      else .ok st₁

/-- The batch loop of one epoch of Trainer.train, counting down the
remaining batches; the current batch number is bpe minus the remaining
count, and the global iteration index is epoch * bpe + batch_number. -/
def run_batches (env : Env) (cfg : TrainerConfig) (epoch bpe : ℕ) :
    ℕ → TrainerState → Except TrainError TrainerState
  | 0, st => .ok st
  | n + 1, st =>
      match train_iteration env cfg (epoch * bpe + (bpe - (n + 1))) st with
      | .error e => .error e
      | .ok st₁ => run_batches env cfg epoch bpe n st₁

/-- The epoch loop of Trainer.train. -/
def run_epochs (env : Env) (cfg : TrainerConfig) (bpe : ℕ) :
    ℕ → ℕ → TrainerState → Except TrainError TrainerState
  | 0, _, st => .ok st
  | n + 1, epoch, st =>
      match run_batches env cfg epoch bpe bpe st with
      | .error e => .error e
      | .ok st₁ => run_epochs env cfg bpe n (epoch + 1) st₁

/-- Embeds Trainer.train: batches_per_epoch = num_training_examples //
batch_size, then the nested epoch and batch loops. -/
def train (env : Env) (cfg : TrainerConfig) (st : TrainerState) :
    Except TrainError TrainerState :=
  run_epochs env cfg (cfg.data.length / cfg.batch_size) cfg.epochs 0 st

/-- The configuration failure named by the spec for an unrecognized
optimizer name at construction. -/
inductive ConfigError
  | configurationError
deriving DecidableEq

/-- An optimizer instance as configured at construction. -/
inductive Optimizer
  | RMSprop (lr : ℚ)
  | Adam (lr : ℚ)
deriving DecidableEq

/-- The attributes cWGAN.__init__ sets.  The two optimizer attributes are
Options because the if/elif chain in the source sets them only for the
two recognized names and has no else branch. -/
structure CWGANModel where
  clip_value : ℚ
  critic_optimizer : Option Optimizer
  generator_optimizer : Option Optimizer
  gp_weight : ℚ
  noise_dims : ℕ
deriving DecidableEq

/-- Embeds cWGAN.__init__.  The result is wrapped in Except so that a
constructor failure would be expressible, but the source constructor has
no raise statement and no else branch on the optimizer dispatch: for any
name other than RMSprop and Adam it completes normally with both
optimizer attributes left unset. -/
def cWGAN_init (clip_value : ℚ) (noise_dims : ℕ) (optimizer : String)
    (gen_lr critic_lr gp_weight : ℚ) : Except ConfigError CWGANModel :=
  let opts : Option Optimizer × Option Optimizer :=
    if optimizer = "RMSprop" then
      (some (.RMSprop critic_lr), some (.RMSprop gen_lr))
    else if optimizer = "Adam" then
      (some (.Adam critic_lr), some (.Adam gen_lr))
    else (none, none)
  .ok { clip_value := clip_value, critic_optimizer := opts.1,
        generator_optimizer := opts.2, gp_weight := gp_weight,
        noise_dims := noise_dims }

/-- The Python TypeError raised when a call supplies the wrong number of
positional arguments. -/
inductive PyError
  | typeError
deriving DecidableEq

/-- Python positional-argument binding: a call succeeds exactly when the
number of supplied arguments matches the parameter list, and otherwise
raises TypeError before the body runs. -/
def pyBindArgs {α : Type} (ps : List String) (args : List α) :
    Except PyError (List (String × α)) :=
  if args.length = ps.length then .ok (ps.zip args)
  else .error .typeError

/-- The positional parameters of cWGAN.__init__ after self. -/
def cWGAN_init_positional : List String :=
  ["clip_value", "noise_dims", "optimizer", "gen_lr", "critic_lr", "gp_weight"]

/-- cWGAN_mnist declares no __init__ of its own, so constructing it runs
the inherited cWGAN.__init__ with the same parameter list. -/
def cWGAN_mnist_init_positional : List String := cWGAN_init_positional

/-- The model-construction call inside MNISTTrainer.__init__:
cWGAN_mnist(clip_value, noise_dims, gen_lr, critic_lr, gp_weight),
five positional arguments bound against the inherited parameter list. -/
def MNISTTrainer_model_init {α : Type}
    (clip_value noise_dims gen_lr critic_lr gp_weight : α) :
    Except PyError (List (String × α)) :=
  pyBindArgs cWGAN_mnist_init_positional
    [clip_value, noise_dims, gen_lr, critic_lr, gp_weight]

/-- The model-construction call inside Trainer.__init__:
cWGAN(clip_value, noise_dims, optimizer, gen_lr, critic_lr, gp_weight),
six positional arguments. -/
def Trainer_model_init {α : Type}
    (clip_value noise_dims optimizer gen_lr critic_lr gp_weight : α) :
    Except PyError (List (String × α)) :=
  pyBindArgs cWGAN_init_positional
    [clip_value, noise_dims, optimizer, gen_lr, critic_lr, gp_weight]

/-- A concrete environment used to evaluate the embedding on closed
inputs: the generator echoes its condition batch, critic scores are 0,
the critic input-gradient is 3 on every coordinate, optimizer updates
keep parameters unchanged, every random stream is constantly 0, and
checkpoint writes succeed. -/
def baseEnv : Env where
  genForward := fun _ _ x _ => x
  critForward := fun _ _ _ ys => ys.map (fun _ => 0)
  critForward1 := fun _ _ c => c.map (fun _ => 0)
  critGradY := fun _ _ ys => ys.map (fun r => r.map (fun _ => 3))
  critLossGrad := fun _ => []
  genLossGrad := fun _ => []
  applyCriticGrads := fun p _ => p
  applyGenGrads := fun p _ => p
  concatIL := fun i _ => i
  sqrtQ := fun q => q
  noise := fun _ => [[0]]
  tSample := fun _ => [0]
  pickIdx := fun _ => [0]
  saveOk := fun _ => true

/-- The base environment with every checkpoint write failing. -/
def failSaveEnv : Env := { baseEnv with saveOk := fun _ => false }

/-- A one-example dataset of 1-vectors for closed evaluations. -/
def cfg1 : TrainerConfig where
  num_critic_iters := 1
  batch_size := 1
  epochs := 1
  weight_saving_interval := 1
  gp_weight := 1
  data := [([0], [0])]

/-- The initial trainer state: fresh networks, empty histories. -/
def st0 : TrainerState where
  model := { genP := [], critP := [] }
  rng := 0
  critic_losses := []
  generator_losses := []
  wass_estimates := []
  saved := []

/-- Elementwise interpolation of a row with itself returns the row, for
any coefficient. -/
theorem zip_self_interp (t : ℚ) (v : Vec) :
    (v.zip v).map (fun p => t * (p.1 - p.2) + p.2) = v := by
  induction v with
  | nil => rfl
  | cons a v ih =>
      simp only [List.zip_cons_cons, List.map_cons, ih]
      congr 1
      ring

/-- Interpolating a batch with itself returns the batch when one
coefficient is supplied per example. -/
theorem interpolate_self (ts : List ℚ) (y : Batch)
    (h : ts.length = y.length) : interpolate_data ts y y = y := by
  induction ts generalizing y with
  | nil =>
      cases y with
      | nil => rfl
      | cons _ _ => simp at h
  | cons t ts ih =>
      cases y with
      | nil => simp at h
      | cons r y =>
          simp only [List.length_cons, Nat.succ.injEq] at h
          simp only [interpolate_data, zipWith3, zip_self_interp]
          have := ih y h
          simp only [interpolate_data] at this
          rw [this]

/-- Shape of a successful critic step: one loss appended, everything
else in the histories untouched, two random draws consumed. -/
theorem take_critic_step_shape (env : Env) (cfg : TrainerConfig)
    (st st' : TrainerState) (h : take_critic_step env cfg st = .ok st') :
    st'.critic_losses.length = st.critic_losses.length + 1 ∧
    st'.generator_losses = st.generator_losses ∧
    st'.wass_estimates = st.wass_estimates ∧
    st'.saved = st.saved ∧ st'.rng = st.rng + 2 := by
  unfold take_critic_step at h
  split at h
  · exact Except.noConfusion h
  · injection h with h
    subst h
    simp

/-- Shape of the inner critic loop: n losses appended, 2n draws. -/
theorem run_critic_iters_shape (env : Env) (cfg : TrainerConfig) :
    ∀ (n : ℕ) (st st' : TrainerState),
    run_critic_iters env cfg n st = .ok st' →
    st'.critic_losses.length = st.critic_losses.length + n ∧
    st'.generator_losses = st.generator_losses ∧
    st'.wass_estimates = st.wass_estimates ∧
    st'.saved = st.saved ∧ st'.rng = st.rng + 2 * n := by
  intro n
  induction n with
  | zero =>
      intro st st' h
      unfold run_critic_iters at h
      injection h with h
      subst h
      simp
  | succ n ih =>
      intro st st' h
      unfold run_critic_iters at h
      split at h
      · exact Except.noConfusion h
      · rename_i st₁ heq
        obtain ⟨c1, g1, w1, s1, r1⟩ := take_critic_step_shape env cfg st st₁ heq
        obtain ⟨c2, g2, w2, s2, r2⟩ := ih st₁ st' h
        refine ⟨?_, g2.trans g1, w2.trans w1, s2.trans s1, ?_⟩ <;> omega

/-- Shape of a successful generator step: one generator loss and one
Wasserstein estimate appended, critic history untouched, three draws. -/
theorem take_generator_step_shape (env : Env) (cfg : TrainerConfig)
    (st st' : TrainerState)
    (h : take_generator_step env cfg st = .ok st') :
    st'.critic_losses = st.critic_losses ∧
    st'.generator_losses.length = st.generator_losses.length + 1 ∧
    st'.wass_estimates.length = st.wass_estimates.length + 1 ∧
    st'.saved = st.saved ∧ st'.rng = st.rng + 3 := by
  unfold take_generator_step at h
  split at h
  · exact Except.noConfusion h
  · injection h with h
    subst h
    simp

/-- A successful checkpoint write appends its iteration index to the
saved list and changes nothing else. -/
theorem save_weights_shape (env : Env) (iteration : ℕ)
    (st st' : TrainerState) (h : save_weights env iteration st = .ok st') :
    st'.critic_losses = st.critic_losses ∧
    st'.generator_losses = st.generator_losses ∧
    st'.wass_estimates = st.wass_estimates ∧
    st'.saved = st.saved ++ [iteration] ∧ st'.rng = st.rng := by
  unfold save_weights at h
  split at h
  · injection h with h
    subst h
    simp
  · exact Except.noConfusion h

/-- With zero batches per epoch every epoch body is empty and the epoch
loop returns the state unchanged. -/
theorem run_epochs_zero_bpe (env : Env) (cfg : TrainerConfig) :
    ∀ (n epoch : ℕ) (st : TrainerState),
    run_epochs env cfg 0 n epoch st = .ok st := by
  intro n
  induction n with
  | zero => intro epoch st; rfl
  | succ n ih =>
      intro epoch st
      unfold run_epochs run_batches
      exact ih (epoch + 1) st

/-- Claim C1, counterexample: in the MNIST variant the loss returned and
differentiated by train_critic is not critic_loss plus gp_weight times
the gradient penalty of the same batch.  At this concrete input the
MNIST critic-step loss is 0 while the claimed expression evaluates to
64 (the penalty term is 64 and gp_weight is 1). -/
theorem mnist_critic_loss_omits_penalty_counterexample :
    (train_critic_mnist baseEnv { genP := [], critP := [] } 0
        [[0]] [[0]]).2 ≠
      critic_loss
        (baseEnv.critForward1 true [] (baseEnv.concatIL [[0]] [[0]]))
        (baseEnv.critForward1 true []
          (baseEnv.concatIL
            (baseEnv.genForward false [] [[0]] (baseEnv.noise 0)) [[0]]))
        + (1 : ℚ) * gradient_penalty baseEnv [] 0 [[0]] [[0]]
            (baseEnv.genForward false [] [[0]] (baseEnv.noise 0)) := by
  norm_num [train_critic_mnist, baseEnv, critic_loss, mean,
    gradient_penalty, interpolate_data, zipWith3]

/-- Claim C1, amended: in the dense 4-vector variant the loss whose
gradient is applied to the critic equals critic_loss(real_output,
fake_output) plus gp_weight times the gradient penalty computed on the
same batch; in the convolutional MNIST variant it equals
critic_loss(real_output, fake_output) alone, with no penalty term. -/
theorem critic_step_loss_forms (env : Env) (g : Nets) (gp_weight : ℚ)
    (rng : ℕ) (x y labels images : Batch) :
    (train_critic env g gp_weight rng x y).2 =
      critic_loss (env.critForward true g.critP x y)
        (env.critForward true g.critP x
          (env.genForward false g.genP x (env.noise rng)))
      + gp_weight * gradient_penalty env g.critP rng x y
          (env.genForward false g.genP x (env.noise rng)) ∧
    (train_critic_mnist env g rng labels images).2 =
      critic_loss
        (env.critForward1 true g.critP (env.concatIL images labels))
        (env.critForward1 true g.critP
          (env.concatIL
            (env.genForward false g.genP labels (env.noise rng)) labels)) :=
  ⟨rfl, rfl⟩

/-- Claim C2: the interpolation returns t*(y_gen - y_real) + y_real for
whatever coefficients were sampled (no clipping is applied), so whenever
the real and generated batches coincide the interpolated batch equals
y_real for every coefficient vector of matching length, and the penalty
collapses to the mean over the batch of (norm of the critic gradient at
(x, y_real) - 1)^2. -/
theorem gradient_penalty_identical_pairs (env : Env) (critP : Vec)
    (rng : ℕ) (x y : Batch)
    (h : (env.tSample rng).length = y.length) :
    interpolate_data (env.tSample rng) y y = y ∧
    gradient_penalty env critP rng x y y =
      mean ((env.critGradY critP x y).map
        (fun g => (env.sqrtQ (g.map (fun a => a * a)).sum - 1) ^ 2)) := by
  have hi := interpolate_self (env.tSample rng) y h
  refine ⟨hi, ?_⟩
  simp only [gradient_penalty, hi, List.map_map]
  rfl

/-- Claim C2, witness at a concrete one-example batch. -/
theorem gradient_penalty_identical_pairs_witness :
    (baseEnv.tSample 0).length = ([[(0 : ℚ)]] : Batch).length ∧
    (interpolate_data (baseEnv.tSample 0) [[(0 : ℚ)]] [[(0 : ℚ)]] =
        [[(0 : ℚ)]] ∧
      gradient_penalty baseEnv [] 0 [[(1 : ℚ)]] [[(0 : ℚ)]] [[(0 : ℚ)]] =
        mean ((baseEnv.critGradY [] [[(1 : ℚ)]] [[(0 : ℚ)]]).map
          (fun g => (baseEnv.sqrtQ (g.map (fun a => a * a)).sum - 1) ^ 2))) :=
  ⟨by decide,
    gradient_penalty_identical_pairs baseEnv [] 0 [[(1 : ℚ)]] [[(0 : ℚ)]]
      (by decide)⟩

/-- Claim C5: a critic optimization step never changes the generator
parameters and a generator optimization step never changes the critic
parameters, in both the dense and the MNIST variants: each step applies
its update only to the trainable variables of its own network. -/
theorem optimizer_step_param_exclusivity (env : Env) (g : Nets)
    (gp_weight : ℚ) (rng : ℕ) (x y labels images : Batch) :
    (train_critic env g gp_weight rng x y).1.genP = g.genP ∧
    (train_generator env g rng x).1.critP = g.critP ∧
    (train_critic_mnist env g rng labels images).1.genP = g.genP ∧
    (train_generator_mnist env g rng labels).1.critP = g.critP :=
  ⟨rfl, rfl, rfl, rfl⟩

/-- Claim C6, counterexample: constructing the model with the
unrecognized optimizer name SGD does not fail; the constructor completes
normally, merely leaving both optimizer attributes unset. -/
theorem cWGAN_init_unrecognized_name_counterexample :
    cWGAN_init 0 1 "SGD" 0 0 0 =
      .ok { clip_value := 0, critic_optimizer := none,
            generator_optimizer := none, gp_weight := 0,
            noise_dims := 1 } := by
  rfl

/-- Claim C6, amended: for every optimizer name that is neither Adam nor
RMSprop, construction of the model completes without error but leaves
both optimizer attributes unset, so a later optimization step has no
optimizer to use. -/
theorem cWGAN_init_unrecognized_name (clip_value : ℚ) (noise_dims : ℕ)
    (optimizer : String) (gen_lr critic_lr gp_weight : ℚ)
    (h1 : optimizer ≠ "RMSprop") (h2 : optimizer ≠ "Adam") :
    cWGAN_init clip_value noise_dims optimizer gen_lr critic_lr gp_weight =
      .ok { clip_value := clip_value, critic_optimizer := none,
            generator_optimizer := none, gp_weight := gp_weight,
            noise_dims := noise_dims } := by
  simp [cWGAN_init, h1, h2]

/-- Claim C6, witness for the amended statement at the name SGD. -/
theorem cWGAN_init_unrecognized_name_witness :
    ("SGD" ≠ "RMSprop" ∧ "SGD" ≠ "Adam") ∧
    cWGAN_init 2 3 "SGD" 4 5 6 =
      .ok { clip_value := 2, critic_optimizer := none,
            generator_optimizer := none, gp_weight := 6,
            noise_dims := 3 } :=
  ⟨⟨by decide, by decide⟩,
    cWGAN_init_unrecognized_name 2 3 "SGD" 4 5 6 (by decide) (by decide)⟩

/-- Claim C7: whenever batch_size exceeds the number of training
examples, drawing a batch fails with the insufficient-data error (the
ValueError that np.random.choice raises for a sample larger than the
population when replace=False). -/
theorem sample_insufficient_data (data : List (Vec × Vec))
    (batch_size : ℕ) (pick : List ℕ) (h : data.length < batch_size) :
    sample_batch_of_data data batch_size pick =
      .error .insufficientData := by
  rw [sample_batch_of_data, if_neg (by omega)]

/-- Claim C7, witness: sampling one example from an empty dataset. -/
theorem sample_insufficient_data_witness :
    ([] : List (Vec × Vec)).length < 1 ∧
    sample_batch_of_data [] 1 [] = .error .insufficientData :=
  ⟨by decide, sample_insufficient_data [] 1 [] (by decide)⟩

/-- Claim C9: MNISTTrainer.__init__ passes five positional arguments to
the cWGAN_mnist constructor, whose inherited parameter list requires
six, so constructing the MNIST trainer raises TypeError for every
parameter dictionary and never yields a usable trainer; the parent
Trainer.__init__ call, which passes all six, binds successfully. -/
theorem mnist_trainer_init_arity {α : Type}
    (clip_value noise_dims optimizer gen_lr critic_lr gp_weight : α) :
    MNISTTrainer_model_init clip_value noise_dims gen_lr critic_lr
        gp_weight = .error .typeError ∧
    Trainer_model_init clip_value noise_dims optimizer gen_lr critic_lr
        gp_weight =
      .ok (cWGAN_init_positional.zip
        [clip_value, noise_dims, optimizer, gen_lr, critic_lr, gp_weight]) := by
  constructor <;>
    simp [MNISTTrainer_model_init, Trainer_model_init, pyBindArgs,
      cWGAN_mnist_init_positional, cWGAN_init_positional]

/-- Claim C10: when batch_size exceeds the number of training examples,
train() completes normally and changes nothing: batches_per_epoch is
num_training_examples // batch_size = 0, so the per-epoch batch loop
body never runs and sampling is never invoked. -/
theorem train_noop_when_batch_exceeds_data (env : Env)
    (cfg : TrainerConfig) (st : TrainerState)
    (h : cfg.data.length < cfg.batch_size) :
    train env cfg st = .ok st := by
  rw [train, Nat.div_eq_of_lt h]
  exact run_epochs_zero_bpe env cfg cfg.epochs 0 st

/-- A configuration whose batch size exceeds its (empty) dataset. -/
def cfgEmpty : TrainerConfig where
  num_critic_iters := 1
  batch_size := 1
  epochs := 2
  weight_saving_interval := 1
  gp_weight := 1
  data := []

/-- Claim C10, witness: two epochs over an empty dataset with batch
size one return the initial state unchanged. -/
theorem train_noop_when_batch_exceeds_data_witness :
    cfgEmpty.data.length < cfgEmpty.batch_size ∧
    train baseEnv cfgEmpty st0 = .ok st0 :=
  ⟨by decide, train_noop_when_batch_exceeds_data baseEnv cfgEmpty st0
    (by decide)⟩

/-- Claim C3: the Wasserstein estimate appended by a successful
generator step is exactly -critic_loss(real_output, fake_output), where
real_output and fake_output are critic evaluations with training=False
on the sampled batch and on generator predictions likewise produced
with training=False, in both the dense and the MNIST trainers. -/
theorem wass_estimate_identity (env : Env) (cfg : TrainerConfig)
    (st st₁ st₂ : TrainerState)
    (h1 : take_generator_step env cfg st = .ok st₁)
    (h2 : take_generator_step_mnist env cfg st = .ok st₂) :
    (∃ x y, st₁.wass_estimates = st.wass_estimates ++
        [-critic_loss (env.critForward false st.model.critP x y)
          (env.critForward false st.model.critP x
            (env.genForward false st₁.model.genP x
              (env.noise (st.rng + 2))))]) ∧
    (∃ labels images, st₂.wass_estimates = st.wass_estimates ++
        [-critic_loss
          (env.critForward1 false st.model.critP
            (env.concatIL images labels))
          (env.critForward1 false st.model.critP
            (env.concatIL
              (env.genForward false st₂.model.genP labels
                (env.noise (st.rng + 2))) labels))]) := by
  constructor
  · unfold take_generator_step at h1
    split at h1
    · exact Except.noConfusion h1
    · rename_i x y heq
      injection h1 with h1
      subst h1
      exact ⟨x, y, rfl⟩
  · unfold take_generator_step_mnist at h2
    split at h2
    · exact Except.noConfusion h2
    · rename_i labels images heq2
      injection h2 with h2
      subst h2
      exact ⟨labels, images, rfl⟩

/-- The state after one dense generator step from the initial state in
the concrete environment. -/
def stG : TrainerState where
  model := { genP := [], critP := [] }
  rng := 3
  critic_losses := []
  generator_losses := [0]
  wass_estimates := [0]
  saved := []

/-- Claim C3, witness: both generator-step variants run on the concrete
environment from the initial state. -/
theorem wass_estimate_identity_witness :
    (∃ x y, stG.wass_estimates = st0.wass_estimates ++
        [-critic_loss (baseEnv.critForward false st0.model.critP x y)
          (baseEnv.critForward false st0.model.critP x
            (baseEnv.genForward false stG.model.genP x
              (baseEnv.noise (st0.rng + 2))))]) ∧
    (∃ labels images, stG.wass_estimates = st0.wass_estimates ++
        [-critic_loss
          (baseEnv.critForward1 false st0.model.critP
            (baseEnv.concatIL images labels))
          (baseEnv.critForward1 false st0.model.critP
            (baseEnv.concatIL
              (baseEnv.genForward false stG.model.genP labels
                (baseEnv.noise (st0.rng + 2))) labels))]) :=
  wass_estimate_identity baseEnv cfg1 st0 stG stG
    (by norm_num [take_generator_step, sample_batch_of_data,
      train_generator, make_generator_predictions, generator_loss,
      critic_loss, mean, baseEnv, cfg1, st0, stG])
    (by norm_num [take_generator_step_mnist, sample_batch_of_data,
      train_generator_mnist, make_generator_predictions, generator_loss,
      critic_loss, mean, baseEnv, cfg1, st0, stG])

/-- Claim C4: a successful iteration of the training loop appends
exactly num_critic_iters entries to critic_losses and exactly one entry
each to generator_losses and wass_estimates, consumes one fresh random
draw position per sampled batch (two per critic step, three for the
generator step), writes a checkpoint exactly when iteration %
weight_saving_interval == 0, and in particular writes the iteration-0
checkpoint when weight_saving_interval is 1. -/
theorem train_iteration_history_growth (env : Env) (cfg : TrainerConfig)
    (iteration : ℕ) (st st' : TrainerState)
    (h : train_iteration env cfg iteration st = .ok st') :
    st'.critic_losses.length =
      st.critic_losses.length + cfg.num_critic_iters ∧
    st'.generator_losses.length = st.generator_losses.length + 1 ∧
    st'.wass_estimates.length = st.wass_estimates.length + 1 ∧
    st'.rng = st.rng + 2 * cfg.num_critic_iters + 3 ∧
    st'.saved = (if iteration % cfg.weight_saving_interval = 0
      then st.saved ++ [iteration] else st.saved) ∧
    (iteration = 0 → cfg.weight_saving_interval = 1 →
      st'.saved = st.saved ++ [0]) := by
  unfold train_iteration at h
  split at h
  · exact Except.noConfusion h
  · rename_i st₁ hcg
    unfold critic_then_gen at hcg
    split at hcg
    · exact Except.noConfusion hcg
    · rename_i stc hrc
      obtain ⟨c1, g1, w1, s1, r1⟩ :=
        run_critic_iters_shape env cfg cfg.num_critic_iters st stc hrc
      obtain ⟨c2, g2, w2, s2, r2⟩ :=
        take_generator_step_shape env cfg stc st₁ hcg
      split at h
      · rename_i hmod
        obtain ⟨c3, g3, w3, s3, r3⟩ :=
          save_weights_shape env iteration st₁ st' h
        rw [if_pos hmod]
        refine ⟨?_, ?_, ?_, ?_, ?_, ?_⟩
        · rw [c3, c2, c1]
        · rw [g3, g2, g1]
        · rw [w3, w2, w1]
        · rw [r3, r2, r1]
        · rw [s3, s2, s1]
        · intro h0 _
          simp [s3, s2, s1, h0]
      · rename_i hmod
        injection h with h
        subst h
        rw [if_neg hmod]
        refine ⟨?_, ?_, ?_, ?_, s2.trans s1, ?_⟩
        · rw [c2, c1]
        · rw [g2, g1]
        · rw [w2, w1]
        · rw [r2, r1]
        · intro h0 hw
          exact absurd (by simp [h0, hw]) hmod

/-- The state after one full training iteration from the initial state
in the concrete environment. -/
def stIt : TrainerState where
  model := { genP := [], critP := [] }
  rng := 5
  critic_losses := [64]
  generator_losses := [0]
  wass_estimates := [0]
  saved := [0]

/-- Claim C4, witness: one iteration with num_critic_iters = 1 and
weight_saving_interval = 1 grows each history by one entry and writes
the iteration-0 checkpoint. -/
theorem train_iteration_history_growth_witness :
    stIt.critic_losses.length =
      st0.critic_losses.length + cfg1.num_critic_iters ∧
    stIt.generator_losses.length = st0.generator_losses.length + 1 ∧
    stIt.wass_estimates.length = st0.wass_estimates.length + 1 ∧
    stIt.rng = st0.rng + 2 * cfg1.num_critic_iters + 3 ∧
    stIt.saved = (if 0 % cfg1.weight_saving_interval = 0
      then st0.saved ++ [0] else st0.saved) ∧
    (0 = 0 → cfg1.weight_saving_interval = 1 →
      stIt.saved = st0.saved ++ [0]) :=
  train_iteration_history_growth baseEnv cfg1 0 st0 stIt
    (by norm_num [train_iteration, critic_then_gen, run_critic_iters,
      take_critic_step, take_generator_step, sample_batch_of_data,
      train_critic, train_generator, make_generator_predictions,
      generator_loss, critic_loss, mean, gradient_penalty,
      interpolate_data, zipWith3, save_weights, baseEnv, cfg1, st0, stIt])

/-- Claim C8, counterexample: a failing checkpoint write aborts the
training loop rather than letting it continue; with every write failing,
train() on a one-example dataset terminates with the persistence
failure instead of completing its configured epoch. -/
theorem checkpoint_failure_aborts_training_counterexample :
    train failSaveEnv cfg1 st0 = .error .persistenceError := by
  norm_num [train, run_epochs, run_batches, train_iteration,
    critic_then_gen, run_critic_iters, take_critic_step,
    take_generator_step, sample_batch_of_data, train_critic,
    train_generator, make_generator_predictions, generator_loss,
    critic_loss, mean, gradient_penalty, interpolate_data, zipWith3,
    save_weights, failSaveEnv, baseEnv, cfg1, st0]

/-- Claim C8, amended: a checkpoint write failure surfaces as the
persistence failure and propagates out of the loop body, aborting
training (the source loop has no handler around save_weights); the
failed save itself leaves the in-memory state reached after the
completed optimization steps untouched, since save_weights on failure
returns before modifying anything. -/
theorem checkpoint_failure_propagates (env : Env) (cfg : TrainerConfig)
    (iteration : ℕ) (st st₁ : TrainerState)
    (hpre : critic_then_gen env cfg st = .ok st₁)
    (hdue : iteration % cfg.weight_saving_interval = 0)
    (hfail : env.saveOk iteration = false) :
    train_iteration env cfg iteration st = .error .persistenceError ∧
    save_weights env iteration st₁ = .error .persistenceError := by
  have hsw : save_weights env iteration st₁ = .error .persistenceError := by
    simp [save_weights, hfail]
  refine ⟨?_, hsw⟩
  simp only [train_iteration, hpre]
  rw [if_pos hdue]
  exact hsw

/-- The state reached after the optimization steps of iteration 0 and
before its failing checkpoint write. -/
def stPre : TrainerState where
  model := { genP := [], critP := [] }
  rng := 5
  critic_losses := [64]
  generator_losses := [0]
  wass_estimates := [0]
  saved := []

/-- Claim C8, witness for the amended statement: with the failing sink,
iteration 0 reaches its post-step state and the due checkpoint write
fails, so the iteration surfaces the persistence failure. -/
theorem checkpoint_failure_propagates_witness :
    (critic_then_gen failSaveEnv cfg1 st0 = .ok stPre ∧
      0 % cfg1.weight_saving_interval = 0 ∧
      failSaveEnv.saveOk 0 = false) ∧
    (train_iteration failSaveEnv cfg1 0 st0 = .error .persistenceError ∧
      save_weights failSaveEnv 0 stPre = .error .persistenceError) :=
  ⟨⟨by norm_num [critic_then_gen, run_critic_iters, take_critic_step,
      take_generator_step, sample_batch_of_data, train_critic,
      train_generator, make_generator_predictions, generator_loss,
      critic_loss, mean, gradient_penalty, interpolate_data, zipWith3,
      failSaveEnv, baseEnv, cfg1, st0, stPre], by decide, by rfl⟩,
    checkpoint_failure_propagates failSaveEnv cfg1 0 st0 stPre
      (by norm_num [critic_then_gen, run_critic_iters, take_critic_step,
        take_generator_step, sample_batch_of_data, train_critic,
        train_generator, make_generator_predictions, generator_loss,
        critic_loss, mean, gradient_penalty, interpolate_data, zipWith3,
        failSaveEnv, baseEnv, cfg1, st0, stPre])
      (by decide) (by rfl)⟩

end Falcon
